import Mathlib

/-!
Verification of the NasimAirways flight-tracking core: a shallow embedding of
src/flights/views.py and src/flights/models.py and proofs of the spec claims.

Modelling conventions:
* timestamps are integers (seconds); a Python timedelta of m minutes is 60*m
  seconds, and datetime comparisons become integer comparisons;
* CPython evaluates a few quotients in binary floating point
  (total_seconds(), the progress ratio); they are embedded as exact integer
  or rational arithmetic, which is the arithmetic the code is written for;
* math.sin is transcendental, so the map p such that p x = sin (x * pi) is
  passed to the position synthesizer as an abstract parameter sinpi;
* the Django ORM is modelled by explicit inputs: the set of existing booking
  references, the email validator, the parsed request payload.
-/

namespace NasimAirways

/-- A scheduled trip of flights/models.py: base departure and arrival
timestamps (seconds), the announced delay in minutes (PositiveSmallIntegerField,
hence a Nat), and the route's two airport codes. -/
structure Trip where
  fromCode : String
  toCode : String
  departAt : Int
  arriveAt : Int
  delayMinutes : Nat
deriving DecidableEq

/-- Embeds _effective_schedule: both base timestamps shifted by
timedelta(minutes=delay_minutes), that is 60 * delayMinutes seconds. -/
def effective_schedule (t : Trip) : Int × Int :=
  (t.departAt + 60 * (t.delayMinutes : Int), t.arriveAt + 60 * (t.delayMinutes : Int))

/-- Embeds _duration_minutes: max(int((arrive_at - depart_at).total_seconds() // 60), 0)
over the effective schedule; // 60 on whole seconds is floor division, Int.ediv. -/
def duration_minutes (t : Trip) : Int :=
  max (((effective_schedule t).2 - (effective_schedule t).1) / 60) 0

/-- The five status strings _status_for_trip can return. -/
inductive TripStatus where
  | delayed
  | scheduled
  | boarding
  | inAir
  | arrived
deriving DecidableEq

/-- Embeds _status_for_trip: the if-chain over the effective schedule, with
boarding_open = depart_at - timedelta(minutes=45). -/
def status_for_trip (t : Trip) (now : Int) : TripStatus :=
  let depart_at := (effective_schedule t).1
  let arrive_at := (effective_schedule t).2
  let boarding_open := depart_at - 60 * 45
  if 0 < t.delayMinutes ∧ t.departAt ≤ now ∧ now < depart_at then .delayed
  else if now < boarding_open then .scheduled
  else if boarding_open ≤ now ∧ now < depart_at then .boarding
  else if depart_at ≤ now ∧ now < arrive_at then .inAir
  else .arrived

/-- Embeds _progress_percent. The final branch is
int((elapsed_seconds / total_seconds) * 100); both quantities are positive
there, so the truncation toward zero is the floor of 100 * elapsed / total,
Int.ediv on whole seconds. -/
def progress_percent (t : Trip) (now : Int) : Int :=
  let depart_at := (effective_schedule t).1
  let arrive_at := (effective_schedule t).2
  if now ≤ depart_at then 0
  else if arrive_at ≤ now then 100
  else
    let total_seconds := arrive_at - depart_at
    let elapsed_seconds := now - depart_at
    if total_seconds ≤ 0 then 100
    else (100 * elapsed_seconds) / total_seconds

/-- The hour-of-day of a timestamp in seconds, as datetime.hour reads it. -/
def hour_of (ts : Int) : Int := (ts / 3600) % 24

/-- The rush-hour set of _ai_insights: depart_at.hour in (6, 7, 8, 17, 18, 19, 20). -/
def rush_hours : List Int := [6, 7, 8, 17, 18, 19, 20]

/-- The record _ai_insights returns. -/
structure Insights where
  duration_minutes : Int
  status : TripStatus
  risk_score : Nat
  risk_level : String
  recommendation : String
deriving DecidableEq

/-- Embeds _ai_insights. hours_until_departure < 2 with
hours_until_departure = (depart_at - now).total_seconds() / 3600 is exactly
depart_at - now < 7200 seconds; delay_minutes // 3 is Nat division. -/
def ai_insights (t : Trip) (now : Int) : Insights :=
  let duration := duration_minutes t
  let depart_at := (effective_schedule t).1
  let risk_score : Nat :=
    10 + (if 210 < duration then 15 else 0)
       + (if hour_of depart_at ∈ rush_hours then 20 else 0)
       + (if depart_at - now < 7200 then 15 else 0)
       + (if 0 < t.delayMinutes then min 25 (t.delayMinutes / 3) else 0)
  let level_rec : String × String :=
    if 55 ≤ risk_score then
      ("High", "Send proactive SMS update and offer self-service rebooking options.")
    else if 35 ≤ risk_score then
      ("Medium", "Auto-alert gate changes and push check-in reminder now.")
    else
      ("Low", "No intervention needed. Keep live tracking enabled.")
  { duration_minutes := duration
    status := status_for_trip t now
    risk_score := risk_score
    risk_level := level_rec.1
    recommendation := level_rec.2 }

/-- The first branch of _progress_percent. -/
lemma progress_percent_of_le (t : Trip) (now : Int)
    (h : now ≤ (effective_schedule t).1) : progress_percent t now = 0 := by
  simp only [progress_percent]
  rw [if_pos h]

/-- The second branch of _progress_percent. -/
lemma progress_percent_of_ge (t : Trip) (now : Int)
    (h1 : ¬ now ≤ (effective_schedule t).1) (h2 : (effective_schedule t).2 ≤ now) :
    progress_percent t now = 100 := by
  simp only [progress_percent]
  rw [if_neg h1, if_pos h2]

/-- The final branch of _progress_percent. -/
lemma progress_percent_of_mid (t : Trip) (now : Int)
    (h1 : (effective_schedule t).1 < now) (h2 : now < (effective_schedule t).2) :
    progress_percent t now =
      (100 * (now - (effective_schedule t).1)) /
        ((effective_schedule t).2 - (effective_schedule t).1) := by
  simp only [progress_percent]
  rw [if_neg (by omega), if_neg (by omega), if_neg (by omega)]

/-- The mid-flight quotient never exceeds 100. -/
lemma mid_quotient_le_100 (dep arr now : Int) (h1 : dep < now) (h2 : now ≤ arr) :
    (100 * (now - dep)) / (arr - dep) ≤ 100 := by
  have hpos : (0 : Int) < arr - dep := by omega
  calc (100 * (now - dep)) / (arr - dep)
      ≤ (100 * (arr - dep)) / (arr - dep) := Int.ediv_le_ediv hpos (by omega)
    _ = 100 := Int.mul_ediv_cancel 100 (by omega)

/-- progress_percent never goes below 0. -/
lemma progress_percent_nonneg (t : Trip) (now : Int) : 0 ≤ progress_percent t now := by
  simp only [progress_percent]
  split_ifs with h1 h2 h3
  · omega
  · omega
  · omega
  · exact Int.ediv_nonneg (by omega) (by omega)

/-- progress_percent never goes above 100. -/
lemma progress_percent_le_100 (t : Trip) (now : Int) : progress_percent t now ≤ 100 := by
  simp only [progress_percent]
  split_ifs with h1 h2 h3
  · omega
  · omega
  · omega
  · exact mid_quotient_le_100 _ _ _ (by omega) (by omega)

/-- progress_percent is monotone in now. -/
lemma progress_percent_mono (t : Trip) (n₁ n₂ : Int) (h : n₁ ≤ n₂) :
    progress_percent t n₁ ≤ progress_percent t n₂ := by
  by_cases h1 : n₁ ≤ (effective_schedule t).1
  · rw [progress_percent_of_le t n₁ h1]
    exact progress_percent_nonneg t n₂
  · by_cases h2 : (effective_schedule t).2 ≤ n₁
    · rw [progress_percent_of_ge t n₁ h1 h2,
        progress_percent_of_ge t n₂ (by omega) (by omega)]
    · have e1 := progress_percent_of_mid t n₁ (by omega) (by omega)
      by_cases h3 : (effective_schedule t).2 ≤ n₂
      · rw [e1, progress_percent_of_ge t n₂ (by omega) h3]
        exact mid_quotient_le_100 _ _ _ (by omega) (by omega)
      · rw [e1, progress_percent_of_mid t n₂ (by omega) (by omega)]
        exact Int.ediv_le_ediv (by omega) (by omega)

/-- C1: _status_for_trip is decided by the first matching rule over the
effective schedule (depart, arrive) with boarding_open = depart - 45 minutes:
Delayed iff the delay is positive and the base departure has been reached
while the adjusted one has not; otherwise Scheduled iff now is before
boarding_open; otherwise Boarding iff boarding_open ≤ now < depart; otherwise
In Air iff depart ≤ now < arrive; otherwise Arrived. -/
theorem status_for_trip_first_match (t : Trip) (now : Int)
    (hta : t.departAt < t.arriveAt) :
    (status_for_trip t now = .delayed ↔
        (0 < t.delayMinutes ∧ t.departAt ≤ now ∧ now < (effective_schedule t).1)) ∧
    (¬(0 < t.delayMinutes ∧ t.departAt ≤ now ∧ now < (effective_schedule t).1) →
      ((status_for_trip t now = .scheduled ↔ now < (effective_schedule t).1 - 60 * 45) ∧
       (¬(now < (effective_schedule t).1 - 60 * 45) →
         ((status_for_trip t now = .boarding ↔
             ((effective_schedule t).1 - 60 * 45 ≤ now ∧ now < (effective_schedule t).1)) ∧
          (¬((effective_schedule t).1 - 60 * 45 ≤ now ∧ now < (effective_schedule t).1) →
            ((status_for_trip t now = .inAir ↔
                ((effective_schedule t).1 ≤ now ∧ now < (effective_schedule t).2)) ∧
             (¬((effective_schedule t).1 ≤ now ∧ now < (effective_schedule t).2) →
               status_for_trip t now = .arrived))))))) := by
  simp only [status_for_trip]
  split_ifs with h1 h2 h3 h4 <;> simp_all

/-- C2: _progress_percent is decided by the ordered rules over the effective
schedule: 0 when now ≤ depart; else 100 when now ≥ arrive; else 100 when the
duration is zero or negative; else the floor of 100 (now - depart) / (arrive - depart). -/
theorem progress_percent_ordered_rules (t : Trip) (now : Int) :
    (now ≤ (effective_schedule t).1 → progress_percent t now = 0) ∧
    (¬ now ≤ (effective_schedule t).1 → (effective_schedule t).2 ≤ now →
        progress_percent t now = 100) ∧
    (¬ now ≤ (effective_schedule t).1 → ¬ (effective_schedule t).2 ≤ now →
      (((effective_schedule t).2 - (effective_schedule t).1 ≤ 0 →
          progress_percent t now = 100) ∧
       (0 < (effective_schedule t).2 - (effective_schedule t).1 →
          progress_percent t now =
            (100 * (now - (effective_schedule t).1)) /
              ((effective_schedule t).2 - (effective_schedule t).1)))) := by
  refine ⟨progress_percent_of_le t now, progress_percent_of_ge t now, ?_⟩
  intro h1 h2
  exact ⟨fun h => absurd h (by omega), fun _ => progress_percent_of_mid t now (by omega) (by omega)⟩

/-- C3: progress_percent is monotonically non-decreasing in now and always
lies in the integer interval from 0 to 100. -/
theorem progress_percent_monotone_and_clamped (t : Trip) (n₁ n₂ : Int) (h : n₁ ≤ n₂) :
    progress_percent t n₁ ≤ progress_percent t n₂ ∧
    0 ≤ progress_percent t n₁ ∧ progress_percent t n₁ ≤ 100 :=
  ⟨progress_percent_mono t n₁ n₂ h, progress_percent_nonneg t n₁, progress_percent_le_100 t n₁⟩

/-- C4: the effective schedule adds exactly delayMinutes minutes (60 * d
seconds) to both the base departure and the base arrival, so the effective
duration equals the base duration for every delay value. -/
theorem effective_schedule_shifts_both_and_preserves_duration (t : Trip) :
    (effective_schedule t).1 = t.departAt + 60 * (t.delayMinutes : Int) ∧
    (effective_schedule t).2 = t.arriveAt + 60 * (t.delayMinutes : Int) ∧
    (effective_schedule t).2 - (effective_schedule t).1 = t.arriveAt - t.departAt := by
  refine ⟨rfl, rfl, ?_⟩
  simp only [effective_schedule]
  ring

/-- The risk score of _ai_insights, written as the sum of the base and the
four bonuses. -/
lemma ai_insights_risk_score_eq (t : Trip) (now : Int) :
    (ai_insights t now).risk_score =
      10 + (if 210 < duration_minutes t then 15 else 0)
         + (if hour_of (effective_schedule t).1 ∈ rush_hours then 20 else 0)
         + (if (effective_schedule t).1 - now < 7200 then 15 else 0)
         + (if 0 < t.delayMinutes then min 25 (t.delayMinutes / 3) else 0) := rfl

/-- The risk level, written as the first component of the level-recommendation
pair chosen from the score. -/
lemma ai_insights_risk_level_eq (t : Trip) (now : Int) :
    (ai_insights t now).risk_level =
      (if 55 ≤ (ai_insights t now).risk_score then
         ("High", "Send proactive SMS update and offer self-service rebooking options.")
       else if 35 ≤ (ai_insights t now).risk_score then
         ("Medium", "Auto-alert gate changes and push check-in reminder now.")
       else
         ("Low", "No intervention needed. Keep live tracking enabled.")).1 := rfl

/-- The risk level is High exactly when the score reaches 55. -/
lemma ai_insights_high_iff (t : Trip) (now : Int) :
    (ai_insights t now).risk_level = "High" ↔ 55 ≤ (ai_insights t now).risk_score := by
  rw [ai_insights_risk_level_eq]
  split_ifs with h1 h2 <;> simp_all

/-- C10: the risk score of _ai_insights always lies between 10 and 85
(base 10 plus bonuses capped at 15 + 20 + 15 + 25), every trip gets one of
the three defined risk levels, and the High level needs at least two of the
four bonus conditions to hold. -/
theorem ai_insights_risk_score_bounds (t : Trip) (now : Int) :
    10 ≤ (ai_insights t now).risk_score ∧ (ai_insights t now).risk_score ≤ 85 ∧
    ((ai_insights t now).risk_level = "High" ∨ (ai_insights t now).risk_level = "Medium" ∨
      (ai_insights t now).risk_level = "Low") ∧
    ((ai_insights t now).risk_level = "High" →
      2 ≤ ((if 210 < duration_minutes t then 1 else 0) +
           (if hour_of (effective_schedule t).1 ∈ rush_hours then 1 else 0) +
           (if (effective_schedule t).1 - now < 7200 then 1 else 0) +
           (if 0 < t.delayMinutes then 1 else 0) : Nat)) := by
  have hmin : min 25 (t.delayMinutes / 3) ≤ 25 := Nat.min_le_left _ _
  have hsc := ai_insights_risk_score_eq t now
  refine ⟨?_, ?_, ?_, ?_⟩
  · rw [hsc]; split_ifs <;> omega
  · rw [hsc]; split_ifs <;> omega
  · rw [ai_insights_risk_level_eq]
    split_ifs <;> simp
  · intro hhigh
    have h55 := (ai_insights_high_iff t now).mp hhigh
    rw [hsc] at h55
    split_ifs at h55 ⊢ <;> omega

/-- The fixed coordinate table AIRPORT_COORDS of views.py, as exact decimal
rationals. -/
def AIRPORT_COORDS : List (String × ℚ × ℚ) := [
  ("MSP", 44.8848, -93.2223),
  ("ORD", 41.9742, -87.9073),
  ("JFK", 40.6413, -73.7781),
  ("LHR", 51.4700, -0.4543),
  ("FRA", 50.0379, 8.5622),
  ("MAD", 40.4893, -3.5676),
  ("FCO", 41.8003, 12.2389),
  ("IST", 41.2753, 28.7519),
  ("DOH", 25.2731, 51.6081),
  ("DXB", 25.2532, 55.3657),
  ("JED", 21.6702, 39.1525),
  ("CAI", 30.1219, 31.4056),
  ("DEL", 28.5562, 77.1000),
  ("BOM", 19.0896, 72.8656),
  ("BKK", 13.6900, 100.7501),
  ("CDG", 49.0097, 2.5479),
  ("SIN", 1.3644, 103.9915),
  ("HKG", 22.3080, 113.9185),
  ("NRT", 35.7720, 140.3929),
  ("ICN", 37.4602, 126.4407),
  ("SYD", -33.9399, 151.1753),
  ("JNB", -26.1367, 28.2410),
  ("GRU", -23.4356, -46.4731)]

/-- Python round(x, k) for the values rounded here: half up to k decimal
places. CPython rounds exact ties to even, but no value rounded in this
development is a tie, and float representation noise is not modelled. -/
def roundDec (k : Nat) (x : ℚ) : ℚ := ((⌊x * 10 ^ k + 1 / 2⌋ : ℤ) : ℚ) / 10 ^ k

/-- Embeds _airport_coords_from_code: the table entry when the code is known,
else the deterministic fallback derived from the sum of the character codes. -/
def airport_coords_from_code (code : String) : ℚ × ℚ :=
  match AIRPORT_COORDS.find? (fun e => e.1 == code) with
  | some e => e.2
  | none =>
    let seed : Nat := (code.data.map Char.toNat).sum
    let lat : ℚ := 20 + ((seed % 45 : Nat) : ℚ)
    let lon : ℚ := -120 + ((seed % 70 : Nat) : ℚ)
    (roundDec 4 lat, roundDec 4 lon)

/-- Python int() applied to a rational: truncation toward zero. -/
def pyInt (x : ℚ) : Int := if 0 ≤ x then ⌊x⌋ else ⌈x⌉

/-- The numeric and status fields of the payload _live_position_for_trip
builds; the passthrough metadata strings (airport names, cities, ISO
timestamps, the mode tag) carry no computation and are omitted. -/
structure LivePosition where
  status : TripStatus
  start_latitude : ℚ
  start_longitude : ℚ
  end_latitude : ℚ
  end_longitude : ℚ
  latitude : ℚ
  longitude : ℚ
  altitude_ft : Int
  ground_speed_kts : Int
  progress_percent : Int
deriving DecidableEq

/-- Embeds _live_position_for_trip. sinpi is the abstract map
x maps-to sin (x * pi) of the Python math library. -/
def live_position_for_trip (sinpi : ℚ → ℚ) (t : Trip) (now : Int) : LivePosition :=
  let start := airport_coords_from_code t.fromCode
  let finish := airport_coords_from_code t.toCode
  let progress : ℚ := ((progress_percent t now : ℚ)) / 100
  let status := status_for_trip t now
  let lat0 := start.1 + (finish.1 - start.1) * progress
  let lat := if status = .inAir then lat0 + sinpi progress * 1.5 else lat0
  let lon := start.2 + (finish.2 - start.2) * progress
  let altitude_ft : Int :=
    if status = .scheduled ∨ status = .boarding then 0
    else if status = .inAir then pyInt (38000 * sinpi progress)
    else 0
  let ground_speed_kts : Int :=
    if status = .scheduled ∨ status = .boarding then 0
    else if status = .inAir then 460 + pyInt (40 * sinpi progress)
    else 0
  { status := status
    start_latitude := roundDec 5 start.1
    start_longitude := roundDec 5 start.2
    end_latitude := roundDec 5 finish.1
    end_longitude := roundDec 5 finish.2
    latitude := roundDec 5 lat
    longitude := roundDec 5 lon
    altitude_ft := altitude_ft
    ground_speed_kts := ground_speed_kts
    progress_percent := pyInt (progress * 100) }

/-- The floor of one half is zero. -/
lemma floor_one_half_q : ⌊(1 / 2 : ℚ)⌋ = 0 := by
  rw [Int.floor_eq_zero_iff]
  constructor <;> norm_num

/-- Rounding fixes every integer value. -/
lemma roundDec_intCast (k : Nat) (m : ℤ) : roundDec k ((m : ℚ)) = m := by
  unfold roundDec
  have h1 : ((m : ℚ) * 10 ^ k + 1 / 2) = 1 / 2 + (((m * 10 ^ k : ℤ) : ℚ)) := by
    push_cast
    ring
  rw [h1, Int.floor_add_int, floor_one_half_q]
  push_cast
  field_simp

/-- C8: for a code outside the fixed table, _airport_coords_from_code returns
exactly (20 + seed mod 45, -120 + seed mod 70) where seed is the sum of the
character codes, and the lookup is deterministic: the same unknown code always
yields the same point. -/
theorem airport_coords_unknown_formula (code : String)
    (h : AIRPORT_COORDS.find? (fun e => e.1 == code) = none) :
    airport_coords_from_code code =
      (20 + (((code.data.map Char.toNat).sum % 45 : Nat) : ℚ),
       -120 + (((code.data.map Char.toNat).sum % 70 : Nat) : ℚ)) ∧
    airport_coords_from_code code = airport_coords_from_code code := by
  refine ⟨?_, rfl⟩
  simp only [airport_coords_from_code, h]
  generalize (code.data.map Char.toNat).sum % 45 = a
  generalize (code.data.map Char.toNat).sum % 70 = b
  have e1 : (20 + ((a : Nat) : ℚ)) = ((((20 : Int) + (a : Int)) : ℤ) : ℚ) := by
    push_cast
    ring
  have e2 : (-120 + ((b : Nat) : ℚ)) = ((((-120 : Int) + (b : Int)) : ℤ) : ℚ) := by
    push_cast
    ring
  rw [e1, e2, roundDec_intCast, roundDec_intCast, ← e1, ← e2]

/-- C9: at progress 0 the synthesized position coincides with the origin
airport coordinates as reported (latitude equals start_latitude, longitude
equals start_longitude); altitude and ground speed are 0 whenever the status
is not In Air; and In Air altitude and ground speed follow the sinusoidal
profile 38000 sin (progress pi) and 460 + 40 sin (progress pi). -/
theorem live_position_origin_and_dynamics (sinpi : ℚ → ℚ) (h0 : sinpi 0 = 0)
    (t : Trip) (now : Int) :
    (progress_percent t now = 0 →
      (live_position_for_trip sinpi t now).latitude =
        (live_position_for_trip sinpi t now).start_latitude ∧
      (live_position_for_trip sinpi t now).longitude =
        (live_position_for_trip sinpi t now).start_longitude) ∧
    ((live_position_for_trip sinpi t now).status ≠ .inAir →
      (live_position_for_trip sinpi t now).altitude_ft = 0 ∧
      (live_position_for_trip sinpi t now).ground_speed_kts = 0) ∧
    ((live_position_for_trip sinpi t now).status = .inAir →
      (live_position_for_trip sinpi t now).altitude_ft =
        pyInt (38000 * sinpi ((progress_percent t now : ℚ) / 100)) ∧
      (live_position_for_trip sinpi t now).ground_speed_kts =
        460 + pyInt (40 * sinpi ((progress_percent t now : ℚ) / 100))) := by
  refine ⟨?_, ?_, ?_⟩
  · intro hp
    have hp2 : ((progress_percent t now : ℚ)) / 100 = 0 := by
      rw [hp]
      norm_num
    simp only [live_position_for_trip, hp2]
    constructor
    · split_ifs with hs
      · congr 1
        rw [h0]
        ring
      · congr 1
        ring
    · congr 1
      ring
  · intro hs
    simp only [live_position_for_trip] at hs ⊢
    split_ifs with h1 h2 <;> simp_all
  · intro hs
    simp only [live_position_for_trip] at hs ⊢
    split_ifs with h1 h2 <;> simp_all

/-- Contiguous-sublist containment on character lists: the Python substring
test needle in haystack. -/
def charsContain (needle : List Char) : List Char → Bool
  | [] => needle.isEmpty
  | c :: rest => needle.isPrefixOf (c :: rest) || charsContain needle rest

/-- The Python substring test needle in haystack on strings. -/
def strContains (needle haystack : String) : Bool :=
  charsContain needle.data haystack.data

/-- Python str.lower restricted to the per-character mapping; every keyword
matched here is ASCII, where lower is exactly Char.toLower. -/
def toLowerStr (s : String) : String := ⟨s.data.map Char.toLower⟩

/-- The ordered easy-topic rule groups of _triage_support_message, each a
keyword tuple with its canned reply. -/
def easy_rules : List (List String × String) := [
  (["check-in", "check in", "checkin"],
   "Online check-in usually opens 24 hours before departure and closes 60 minutes before takeoff for most routes."),
  (["baggage", "bag", "luggage", "carry on", "carry-on"],
   "Most guests can bring 1 carry-on and 1 personal item. Checked baggage depends on fare type, so share your route and I can help estimate it."),
  (["refund", "cancel", "cancellation"],
   "Refund timing depends on fare rules. Non-refundable fares often return taxes only; flexible fares can be refunded to your original payment method."),
  (["payment", "card", "pay"],
   "Accepted payment methods include major cards. If payment fails, try matching billing address and retry with a fresh session."),
  (["reschedule", "change flight", "change booking", "change ticket"],
   "You can change eligible bookings from Manage Trip. Change fees and fare differences depend on fare rules and route."),
  (["boarding pass", "mobile pass", "pass"],
   "After successful check-in, your boarding pass is available in My Trips and can be downloaded to your phone.")]

/-- The escalation-signal keyword tuple of _triage_support_message. -/
def complex_signals : List String := [
  "complaint", "legal", "chargeback", "emergency", "medical", "visa",
  "passport issue", "group booking", "corporate booking", "special assistance",
  "not received", "fraud", "representative", "agent"]

/-- The generic ask-for-more-detail reply (the two adjacent Python string
literals concatenated). -/
def generic_reply : String :=
  "I can help with check-in, baggage, payment, booking changes, and refund policy. If you share more details, I will try to solve it first."

/-- What _triage_support_message returns: handled_by is always the literal
string ai, escalate the routing decision, reply absent exactly on escalation. -/
structure TriageResult where
  handled_by : String
  escalate : Bool
  reply : Option String
deriving DecidableEq

/-- Embeds _triage_support_message: the first easy-topic group with a keyword
occurring in the lowercased message answers with its canned reply; otherwise
escalate when an escalation signal occurs or the lowercased message is longer
than 220 characters; otherwise the generic reply. -/
def triage_support_message (message : String) : TriageResult :=
  let lower := toLowerStr message
  match easy_rules.find? (fun rule => rule.1.any (fun k => strContains k lower)) with
  | some rule => { handled_by := "ai", escalate := false, reply := some rule.2 }
  | none =>
    if complex_signals.any (fun signal => strContains signal lower) || 220 < lower.length then
      { handled_by := "ai", escalate := true, reply := none }
    else
      { handled_by := "ai", escalate := false, reply := some generic_reply }

/-- Modelled from the claim wording for comparison with the code: walk the
ordered easy-topic groups and return the first matching reply. -/
def firstGroupReply (lower : String) : List (List String × String) → Option String
  | [] => none
  | g :: rest =>
    if g.1.any (fun k => strContains k lower) then some g.2
    else firstGroupReply lower rest

/-- Modelled from the claim wording: the triage decision as the specification
states it, first matching easy-topic group, then the escalation test
(signal keyword present or length over 220), then the generic reply. -/
def triage_spec (message : String) : TriageResult :=
  let lower := toLowerStr message
  match firstGroupReply lower easy_rules with
  | some reply => { handled_by := "ai", escalate := false, reply := some reply }
  | none =>
    if complex_signals.any (fun signal => strContains signal lower) || 220 < lower.length then
      { handled_by := "ai", escalate := true, reply := none }
    else
      { handled_by := "ai", escalate := false, reply := some generic_reply }

/-- List.find? composed with the reply projection is the ordered first-match
walk of the specification. -/
lemma firstGroupReply_eq_find (lower : String) (groups : List (List String × String)) :
    firstGroupReply lower groups =
      (groups.find? (fun rule => rule.1.any (fun k => strContains k lower))).map Prod.snd := by
  induction groups with
  | nil => rfl
  | cons g rest ih =>
    cases hA : (g.1.any fun k => strContains k lower)
    · rw [firstGroupReply, if_neg (by simp [hA]), ih,
        List.find?_cons_of_neg rest (by simp [hA])]
    · rw [firstGroupReply, if_pos (by simp [hA]),
        List.find?_cons_of_pos rest (by simp [hA])]
      rfl

/-- C5: the triage implementation decides every message exactly as the
specification describes: ordered easy-topic first match with canned reply and
escalate false, else escalate exactly when an escalation-signal keyword occurs
or the message length exceeds 220, else the generic reply. -/
theorem triage_support_message_matches_spec (message : String) :
    triage_support_message message = triage_spec message := by
  simp only [triage_support_message, triage_spec, firstGroupReply_eq_find]
  cases easy_rules.find? (fun rule => rule.1.any (fun k => strContains k (toLowerStr message))) <;>
    rfl

/-- Python str.strip on both ends, written with structural recursion so the
kernel can evaluate it (String.trim does not reduce). -/
def pyStrip (s : String) : String :=
  ⟨((s.data.dropWhile Char.isWhitespace).reverse.dropWhile Char.isWhitespace).reverse⟩

/-- The four fields support_contact_api reads from the decoded JSON payload
(each defaulted to the empty string when absent, before stripping). -/
structure SupportPayload where
  name : String
  email : String
  message : String
  source_page : String

/-- A persisted SupportTicket row as support_contact_api creates it. -/
structure TicketRow where
  name : String
  email : String
  message : String
  source_page : String
deriving DecidableEq

/-- What support_contact_api answers: the HTTP status, the ok and escalated
flags, the reply or error text, and the ticket written to storage, if any. -/
structure SupportResponse where
  status : Nat
  ok : Bool
  escalated : Bool
  reply : Option String
  error : Option String
  ticket : Option TicketRow
deriving DecidableEq

/-- The reply sent when escalation meets a syntactically invalid email. -/
def invalid_email_reply : String :=
  "This needs a representative. Please share a valid email so our team can follow up with you soon."

/-- The reply sent when escalation meets a missing email. -/
def missing_email_reply : String :=
  "This looks like a complex request. Please add your email and send again so a representative can contact you soon."

/-- The reply sent when a ticket has been created. -/
def escalation_forwarded_reply : String :=
  "Thanks. A representative will get back to you soon. Your request has been forwarded to our support desk."

/-- Embeds support_contact_api after JSON decoding: strip the fields, reject
an empty message with status 400, answer non-escalating triage directly, and
on escalation require a present and syntactically valid email (valid_email
stands for the Django validate_email collaborator) before creating a ticket. -/
def support_contact_api (valid_email : String → Bool) (p : SupportPayload) : SupportResponse :=
  let name := (pyStrip p.name)
  let email := (pyStrip p.email)
  let message := (pyStrip p.message)
  let source_page := (pyStrip p.source_page)
  if message = "" then
    { status := 400, ok := false, escalated := false, reply := none,
      error := some "Please enter your message.", ticket := none }
  else
    let triage := triage_support_message message
    if triage.escalate = false then
      { status := 200, ok := true, escalated := false, reply := triage.reply,
        error := none, ticket := none }
    else if email ≠ "" ∧ valid_email email = false then
      { status := 200, ok := true, escalated := false, reply := some invalid_email_reply,
        error := none, ticket := none }
    else if email = "" then
      { status := 200, ok := true, escalated := false, reply := some missing_email_reply,
        error := none, ticket := none }
    else
      { status := 200, ok := true, escalated := true, reply := some escalation_forwarded_reply,
        error := none,
        ticket := some { name := if name = "" then "Guest" else name, email := email,
                         message := message, source_page := source_page.take 200 } }

/-- An empty message never escalates: it reaches no easy rule, no signal and
no length threshold. -/
lemma triage_empty_not_escalate : (triage_support_message "").escalate = false := by
  decide

/-- C6: when the stripped message escalates, a ticket is created exactly when
a nonempty, syntactically valid email accompanies the request; with a missing
or invalid email no ticket is created and the answer is still HTTP 200,
escalated false, with one of the two resupply-your-email replies. -/
theorem support_contact_escalation_email_gate (valid_email : String → Bool)
    (p : SupportPayload)
    (h : (triage_support_message (pyStrip p.message)).escalate = true) :
    ((support_contact_api valid_email p).ticket.isSome = true ↔
      ((pyStrip p.email) ≠ "" ∧ valid_email (pyStrip p.email) = true)) ∧
    (((pyStrip p.email) = "" ∨ valid_email (pyStrip p.email) = false) →
      ((support_contact_api valid_email p).status = 200 ∧
       (support_contact_api valid_email p).escalated = false ∧
       (support_contact_api valid_email p).ticket = none ∧
       ((support_contact_api valid_email p).reply = some missing_email_reply ∨
        (support_contact_api valid_email p).reply = some invalid_email_reply))) := by
  have hmsg : ¬ (pyStrip p.message) = "" := by
    intro hempty
    rw [hempty, triage_empty_not_escalate] at h
    exact Bool.false_ne_true h
  simp only [support_contact_api, if_neg hmsg, h]
  refine ⟨?_, ?_⟩
  · by_cases he : (pyStrip p.email) = ""
    · simp [he]
    · by_cases hv : valid_email (pyStrip p.email)
      · simp [he, hv]
      · simp [he, hv]
  · intro hcase
    by_cases he : (pyStrip p.email) = ""
    · simp [he]
    · have hv : valid_email (pyStrip p.email) = false := by
        rcases hcase with hc | hc
        · exact absurd hc he
        · exact hc
      simp [he, hv]

/-- The reference alphabet of Booking._generate_reference:
string.ascii_uppercase + string.digits. -/
def reference_alphabet : List Char := "ABCDEFGHIJKLMNOPQRSTUVWXYZ0123456789".data

/-- The alphabet has 36 characters. -/
lemma reference_alphabet_length : reference_alphabet.length = 36 := rfl

/-- Embeds Booking._generate_reference with its randomness made explicit:
r i is the secrets.choice pick for position i, an index into the alphabet. -/
def generate_reference (r : Nat → Fin 36) : String :=
  ⟨(List.range 8).map (fun i =>
    reference_alphabet.get ⟨(r i).val, by rw [reference_alphabet_length]; exact (r i).isLt⟩)⟩

/-- Embeds Booking.save for a booking without a pre-set reference: up to 10
candidates are drawn in order; the first one no existing booking uses becomes
the reference, and when all 10 collide the loop ends with the reference still
the unset empty string. existing is the stored reference column; r n is the
randomness of attempt n. -/
def booking_save_reference (existing : List String) (r : Nat → Nat → Fin 36) : String :=
  match (List.range 10).find? (fun n => !(existing.contains (generate_reference (r n)))) with
  | some n => generate_reference (r n)
  | none => ""

/-- Every generated candidate has exactly 8 characters. -/
lemma generate_reference_length (r : Nat → Fin 36) : (generate_reference r).length = 8 := by
  simp [generate_reference, String.length]

/-- Every character of a generated candidate comes from the alphabet. -/
lemma generate_reference_chars (r : Nat → Fin 36) :
    ∀ c ∈ (generate_reference r).data, c ∈ reference_alphabet := by
  intro c hc
  simp only [generate_reference, List.mem_map, List.mem_range] at hc
  obtain ⟨i, _, rfl⟩ := hc
  exact List.get_mem _ _ _

/-- C7 counterexample: when all 10 candidates collide with stored references
(the constant draw AAAAAAAA against a table already holding AAAAAAAA), the
stored reference is the empty string, not an 8-character code. -/
theorem booking_reference_all_collide_cex :
    (booking_save_reference ["AAAAAAAA"] (fun _ _ => (0 : Fin 36))).length ≠ 8 := by
  decide

/-- C7 amended: whenever one of the 10 drawn candidates avoids collision, the
stored reference is the first such candidate: an 8-character string over the
uppercase-alphanumeric alphabet that no existing booking uses. -/
theorem booking_reference_spec (existing : List String) (r : Nat → Nat → Fin 36)
    (h : ∃ n ∈ List.range 10, existing.contains (generate_reference (r n)) = false) :
    (booking_save_reference existing r).length = 8 ∧
    (∀ c ∈ (booking_save_reference existing r).data, c ∈ reference_alphabet) ∧
    existing.contains (booking_save_reference existing r) = false ∧
    (∃ n < 10, booking_save_reference existing r = generate_reference (r n)) := by
  have hs : ((List.range 10).find?
      (fun n => !(existing.contains (generate_reference (r n))))).isSome = true := by
    rw [List.find?_isSome]
    obtain ⟨n, hn, hc⟩ := h
    exact ⟨n, hn, by simpa using hc⟩
  obtain ⟨n, hfind⟩ := Option.isSome_iff_exists.mp hs
  have hp := List.find?_some hfind
  have hmem := List.mem_of_find?_eq_some hfind
  have hb : booking_save_reference existing r = generate_reference (r n) := by
    unfold booking_save_reference
    rw [hfind]
  rw [hb]
  refine ⟨generate_reference_length (r n), generate_reference_chars (r n), ?_,
    ⟨n, by simpa using hmem, rfl⟩⟩
  simpa using hp

/-- C1 witness: the delayed-rule clause at a concrete trip (10-minute delay,
base departure at 0, arrival at 7200) observed at time 100. -/
theorem status_for_trip_first_match_witness :
    status_for_trip (Trip.mk "MSP" "ORD" 0 7200 10) 100 = TripStatus.delayed ↔
      (0 < (Trip.mk "MSP" "ORD" 0 7200 10).delayMinutes ∧
       (Trip.mk "MSP" "ORD" 0 7200 10).departAt ≤ 100 ∧
       100 < (effective_schedule (Trip.mk "MSP" "ORD" 0 7200 10)).1) :=
  (status_for_trip_first_match (Trip.mk "MSP" "ORD" 0 7200 10) 100 (by decide)).1

/-- C3 witness: monotonicity and clamping at a concrete trip and two concrete
times. -/
theorem progress_percent_monotone_and_clamped_witness :
    progress_percent (Trip.mk "MSP" "ORD" 0 7200 0) 5 ≤
      progress_percent (Trip.mk "MSP" "ORD" 0 7200 0) 10 ∧
    0 ≤ progress_percent (Trip.mk "MSP" "ORD" 0 7200 0) 5 ∧
    progress_percent (Trip.mk "MSP" "ORD" 0 7200 0) 5 ≤ 100 :=
  progress_percent_monotone_and_clamped (Trip.mk "MSP" "ORD" 0 7200 0) 5 10 (by decide)

/-- C6 witness: the ticket-iff-valid-email clause for an escalating message
(it asks for an agent) with an empty email and a validator that rejects
everything. -/
theorem support_contact_escalation_email_gate_witness :
    (support_contact_api (fun _ => false)
        (SupportPayload.mk "A" "" "I need an agent" "")).ticket.isSome = true ↔
      ((pyStrip ("" : String)) ≠ "" ∧ (fun _ : String => false) (pyStrip ("" : String)) = true) :=
  (support_contact_escalation_email_gate (fun _ => false)
    (SupportPayload.mk "A" "" "I need an agent" "") (by decide)).1

/-- C7 witness: with no stored references and the constant draw, the very
first candidate is taken and has the claimed shape. -/
theorem booking_reference_spec_witness :
    (booking_save_reference [] (fun _ _ => (0 : Fin 36))).length = 8 ∧
    (∀ c ∈ (booking_save_reference [] (fun _ _ => (0 : Fin 36))).data,
      c ∈ reference_alphabet) ∧
    ([] : List String).contains (booking_save_reference [] (fun _ _ => (0 : Fin 36))) = false ∧
    (∃ n < 10, booking_save_reference [] (fun _ _ => (0 : Fin 36)) =
      generate_reference ((fun _ _ => (0 : Fin 36)) n)) :=
  booking_reference_spec [] (fun _ _ => (0 : Fin 36)) ⟨0, by decide, by decide⟩

/-- C8 witness: ZZZ is not in the table; its seed is 270, so the synthesized
point is (20 + 270 mod 45, -120 + 270 mod 70). -/
theorem airport_coords_unknown_formula_witness :
    airport_coords_from_code "ZZZ" =
      (20 + ((("ZZZ".data.map Char.toNat).sum % 45 : Nat) : ℚ),
       -120 + ((("ZZZ".data.map Char.toNat).sum % 70 : Nat) : ℚ)) ∧
    airport_coords_from_code "ZZZ" = airport_coords_from_code "ZZZ" :=
  airport_coords_unknown_formula "ZZZ" (by decide)

/-- C9 witness: the position clauses at a concrete trip observed exactly at
departure, with the zero function standing in for sinpi. -/
theorem live_position_origin_and_dynamics_witness :
    (progress_percent (Trip.mk "MSP" "ORD" 0 3600 0) 0 = 0 →
      (live_position_for_trip (fun _ => 0) (Trip.mk "MSP" "ORD" 0 3600 0) 0).latitude =
        (live_position_for_trip (fun _ => 0) (Trip.mk "MSP" "ORD" 0 3600 0) 0).start_latitude ∧
      (live_position_for_trip (fun _ => 0) (Trip.mk "MSP" "ORD" 0 3600 0) 0).longitude =
        (live_position_for_trip (fun _ => 0) (Trip.mk "MSP" "ORD" 0 3600 0) 0).start_longitude) ∧
    ((live_position_for_trip (fun _ => 0) (Trip.mk "MSP" "ORD" 0 3600 0) 0).status ≠ .inAir →
      (live_position_for_trip (fun _ => 0) (Trip.mk "MSP" "ORD" 0 3600 0) 0).altitude_ft = 0 ∧
      (live_position_for_trip (fun _ => 0) (Trip.mk "MSP" "ORD" 0 3600 0) 0).ground_speed_kts = 0) ∧
    ((live_position_for_trip (fun _ => 0) (Trip.mk "MSP" "ORD" 0 3600 0) 0).status = .inAir →
      (live_position_for_trip (fun _ => 0) (Trip.mk "MSP" "ORD" 0 3600 0) 0).altitude_ft =
        pyInt (38000 * (fun _ : ℚ => (0 : ℚ))
          ((progress_percent (Trip.mk "MSP" "ORD" 0 3600 0) 0 : ℚ) / 100)) ∧
      (live_position_for_trip (fun _ => 0) (Trip.mk "MSP" "ORD" 0 3600 0) 0).ground_speed_kts =
        460 + pyInt (40 * (fun _ : ℚ => (0 : ℚ))
          ((progress_percent (Trip.mk "MSP" "ORD" 0 3600 0) 0 : ℚ) / 100))) :=
  live_position_origin_and_dynamics (fun _ => 0) rfl (Trip.mk "MSP" "ORD" 0 3600 0) 0

end NasimAirways
